import Mathlib

/-!
Verification of the ICTP earthquake-cycle tutorial notebooks.

The development shallowly embeds, over the rationals, the mesh-size and
mesh-construction computations of the QDYN tutorial notebooks (single
asperity, double asperity, CNS spring-block), the configuration-dictionary
assignments, the notebook pipeline ordering, the error-propagation shape of
the pipeline, and the model transcription of the MNIST notebook and pixel
preprocessing.  Machine floats of the notebooks are embedded as exact
rationals; `np.ceil(np.log2 _)` is embedded as `Int.clog 2`, and `np.exp` is
carried as an explicit function argument where it occurs.
-/

/-- One coordinate of the numpy `linspace(a, b, n)`: `a + (b - a) * i / (n - 1)`.
For `n = 1` the `i = 0` entry is `a` (the term `(b - a) * 0 / 0` vanishes in ℚ),
matching the numpy value `linspace(a, b, 1) = [a]`. -/
def linspaceAt (a b : ℚ) (n i : ℕ) : ℚ :=
  a + (b - a) * i / ((n : ℚ) - 1)

/-- The numpy `linspace(a, b, n)` as a list of rationals. -/
def linspace (a b : ℚ) (n : ℕ) : List ℚ :=
  (List.range n).map (linspaceAt a b n)

/-- The mesh-size computation shared by the simulation notebooks:
`int(np.power(2, np.ceil(np.log2(resolution * L / Lb))))`,
embedded over ℚ with `Int.clog 2` playing the role of `ceil ∘ log2`
(the value `2 ^ clog` is positive, so the truncating python `int` is `⌊·⌋`). -/
def meshSizeN (resolution L Lb : ℚ) : ℤ :=
  ⌊(2 : ℚ) ^ Int.clog 2 (resolution * L / Lb)⌋

namespace SingleAsperity

/-- Source: `Lasp = 7` before the rescaling `Lasp *= Lc` (notebook `1_single_asperity`). -/
def Lasp0 : ℚ := 7

/-- Source: `L = 5` before the rescaling `L *= Lasp`. -/
def L0 : ℚ := 5

/-- Source: `ab_ratio = 0.8`, the a/b of the asperity. -/
def abRat : ℚ := 0.8

/-- Source: `cab_ratio = 1 - ab_ratio`. -/
def cabRat : ℚ := 1 - abRat

/-- Source: `resolution = 7`: mesh resolution / process zone width. -/
def resolution : ℚ := 7

/-- Source: `set_dict["MU"] = 3e10`. -/
def MU : ℚ := 3e10

/-- Source: `set_dict["SET_DICT_RSF"]["DC"] = 4e-4`. -/
def DC : ℚ := 4e-4

/-- Source: `set_dict["SET_DICT_RSF"]["B"] = 1e-2`. -/
def B : ℚ := 1e-2

/-- Source: `set_dict["SIGMA"] = 1e8`. -/
def SIGMA : ℚ := 1e8

/-- Process zone width `Lb = MU * DC / (B * SIGMA)`. -/
def Lb : ℚ := MU * DC / (B * SIGMA)

/-- Nucleation length `Lc = Lb / cab_ratio`. -/
def Lc : ℚ := Lb / cabRat

/-- Asperity length after `Lasp *= Lc`. -/
def Lasp : ℚ := Lasp0 * Lc

/-- Fault length after `L *= Lasp`. -/
def L : ℚ := L0 * Lasp

/-- Source: `N = int(np.power(2, np.ceil(np.log2(resolution * L / Lb))))`. -/
def N : ℕ := (meshSizeN resolution L Lb).toNat

/-- Source: `x = np.linspace(-L/2, L/2, N, dtype=float)`. -/
def x : List ℚ := linspace (-L/2) (L/2) N

/-- The mesh override
`p.mesh_dict["A"] = B * (1 + cab_ratio*(1 - 2*np.exp(-(2*x/Lasp)**6)))`,
with `np.exp` carried as the explicit argument `expQ`. -/
def meshA (expQ : ℚ → ℚ) : List ℚ :=
  x.map (fun xi => B * (1 + cabRat * (1 - 2 * expQ (-(2 * xi / Lasp) ^ (6 : ℕ)))))

end SingleAsperity

namespace DoubleAsperity

/-- Source: `L = 15` before the rescaling `L *= Lc` (notebook `2_double_asperity`). -/
def L0 : ℚ := 15

/-- Source: `ab_ratio = 0.8`. -/
def abRat : ℚ := 0.8

/-- Source: `cab_ratio = 1 - ab_ratio`. -/
def cabRat : ℚ := 1 - abRat

/-- Source: `resolution = 7`. -/
def resolution : ℚ := 7

/-- Source: `set_dict["MU"] = 3e10`. -/
def MU : ℚ := 3e10

/-- Source: `set_dict["SET_DICT_RSF"]["DC"] = 4e-4`. -/
def DC : ℚ := 4e-4

/-- Source: `set_dict["SET_DICT_RSF"]["B"] = 1e-2`. -/
def B : ℚ := 1e-2

/-- Source: `set_dict["SET_DICT_RSF"]["A"] = 1.2e-2` (the default rendered over the mesh). -/
def A0 : ℚ := 1.2e-2

/-- Source: `set_dict["SIGMA"] = 1e8`. -/
def SIGMA : ℚ := 1e8

/-- Process zone width `Lb = MU * DC / (B * SIGMA)`. -/
def Lb : ℚ := MU * DC / (B * SIGMA)

/-- Nucleation length `Lc = Lb / cab_ratio`. -/
def Lc : ℚ := Lb / cabRat

/-- Fault length after `L *= Lc`. -/
def L : ℚ := L0 * Lc

/-- Source: `L1 = 0.5 * f * L`, size of the first asperity; the notebook variable `f` is the
argument `fv`. -/
def L1 (fv : ℚ) : ℚ := 0.5 * fv * L

/-- Source: `L2 = 0.5 * (1 - f) * L`, size of the second asperity. -/
def L2 (fv : ℚ) : ℚ := 0.5 * (1 - fv) * L

/-- Source: `p1 = L / 3 - L / 2`, centre of the first asperity. -/
def p1 : ℚ := L / 3 - L / 2

/-- Source: `p2 = 2 * L / 3 - L / 2`, centre of the second asperity. -/
def p2 : ℚ := 2 * L / 3 - L / 2

/-- Source: `N = int(np.power(2, np.ceil(np.log2(resolution * L / Lb))))`. -/
def N : ℕ := (meshSizeN resolution L Lb).toNat

/-- Source: `x = np.linspace(-L/2, L/2, N, dtype=float)`. -/
def x : List ℚ := linspace (-L/2) (L/2) N

/-- Membership in the first asperity: `(x > p1 - L1/2) & (x < p1 + L1/2)`. -/
def asp1P (fv xi : ℚ) : Prop := p1 - L1 fv / 2 < xi ∧ xi < p1 + L1 fv / 2

/-- Membership in the second asperity: `(x > p2 - L2/2) & (x < p2 + L2/2)`. -/
def asp2P (fv xi : ℚ) : Prop := p2 - L2 fv / 2 < xi ∧ xi < p2 + L2 fv / 2

/-- Pointwise boolean value of the first asperity mask. -/
def asp1b (fv xi : ℚ) : Bool :=
  decide (xi > p1 - L1 fv / 2) && decide (xi < p1 + L1 fv / 2)

/-- Pointwise boolean value of the second asperity mask. -/
def asp2b (fv xi : ℚ) : Bool :=
  decide (xi > p2 - L2 fv / 2) && decide (xi < p2 + L2 fv / 2)

/-- Source: `asp1 = (x > (p1 - L1 / 2)) & (x < (p1 + L1 / 2))`, the boolean index mask. -/
def asp1 (fv : ℚ) : List Bool := x.map (asp1b fv)

/-- Source: `asp2 = (x > (p2 - L2 / 2)) & (x < (p2 + L2 / 2))`. -/
def asp2 (fv : ℚ) : List Bool := x.map (asp2b fv)

/-- Pointwise value of the boolean sum `asp1 + asp2` (numpy bool + bool is or). -/
def maskb (fv xi : ℚ) : Bool := asp1b fv xi || asp2b fv xi

/-- The boolean sum `asp1 + asp2` used to index the mesh. -/
def combinedMask (fv : ℚ) : List Bool :=
  List.zipWith (fun a b => a || b) (asp1 fv) (asp2 fv)

/-- Entry `i` of the combined mask (out-of-range reads give `false`). -/
def maskAt (fv : ℚ) (i : ℕ) : Bool := (combinedMask fv).getD i false

/-- Modelled from the spec: `p.render_mesh()` lives in the external pyqdyn
wrapper, not in this repository; per the spec the mesh-generation step
"expands defaults across spatial elements", so the rendered direct-effect
array holds the default `A` in each of the `N` elements. -/
def renderA : List ℚ := List.replicate N A0

/-- Modelled from the spec: the rendered evolution-effect array, the default
`B` in each of the `N` elements. -/
def renderB : List ℚ := List.replicate N B

/-- The masked override
`p.mesh_dict["A"][asp1 + asp2] = ab_ratio * p.mesh_dict["B"][asp1 + asp2]`:
inside the mask the rendered `A` entry is replaced by `ab_ratio` times the
rendered `B` entry, outside it is kept. -/
def meshA (fv : ℚ) : List ℚ :=
  List.zipWith (fun m ab => if m then abRat * ab.2 else ab.1)
    (combinedMask fv) (renderA.zip renderB)

end DoubleAsperity

/-- The nested `set_dict["SET_DICT_RSF"]` keys assigned by the notebooks. -/
structure RSF where
  A : ℚ
  B : ℚ
  DC : ℚ
  V_SS : ℚ
  TH_0 : ℚ

/-- The `set_dict` keys assigned by the rate-and-state notebooks. -/
structure SetDict where
  MESHDIM : ℕ
  FINITE : ℕ
  TMAX : ℚ
  NTOUT : ℕ
  NXOUT : ℕ
  V_PL : ℚ
  MU : ℚ
  W : ℚ
  SIGMA : ℚ
  ACC : ℚ
  SOLVER : ℕ
  SET_DICT_RSF : RSF
  N : ℤ
  L : ℚ
  IC : ℤ

/-- Seconds per year, `t_yr = 3600 * 24 * 365.0`. -/
def t_yr : ℚ := 3600 * 24 * 365

/-- The configuration step of the single-asperity notebook: the `set_dict`
assignments of its step-1 cell, in source order (`V_SS` copies the `V_PL`
assigned above it, `TH_0` divides the `DC` just assigned by `V_PL`). -/
def configureSingle (s0 : SetDict) : SetDict :=
  let s := { s0 with MESHDIM := 1 }
  let s := { s with FINITE := 0 }
  let s := { s with TMAX := 15 * t_yr }
  let s := { s with NTOUT := 100 }
  let s := { s with NXOUT := 2 }
  let s := { s with V_PL := 1e-9 }
  let s := { s with MU := 3e10 }
  let s := { s with W := 50e3 }
  let s := { s with SIGMA := 1e8 }
  let s := { s with ACC := 1e-7 }
  let s := { s with SOLVER := 2 }
  let s := { s with SET_DICT_RSF := { s.SET_DICT_RSF with A := 0.9e-2 } }
  let s := { s with SET_DICT_RSF := { s.SET_DICT_RSF with B := 1e-2 } }
  let s := { s with SET_DICT_RSF := { s.SET_DICT_RSF with DC := 4e-4 } }
  let s := { s with SET_DICT_RSF := { s.SET_DICT_RSF with V_SS := s.V_PL } }
  let s := { s with SET_DICT_RSF :=
    { s.SET_DICT_RSF with TH_0 := s.SET_DICT_RSF.DC / s.V_PL } }
  s

/-- The configuration step of the double-asperity notebook, in source order. -/
def configureDouble (s0 : SetDict) : SetDict :=
  let s := { s0 with MESHDIM := 1 }
  let s := { s with FINITE := 1 }
  let s := { s with TMAX := 25 * t_yr }
  let s := { s with NTOUT := 100 }
  let s := { s with NXOUT := 2 }
  let s := { s with V_PL := 1e-9 }
  let s := { s with MU := 3e10 }
  let s := { s with SIGMA := 1e8 }
  let s := { s with ACC := 1e-7 }
  let s := { s with SOLVER := 2 }
  let s := { s with SET_DICT_RSF := { s.SET_DICT_RSF with A := 1.2e-2 } }
  let s := { s with SET_DICT_RSF := { s.SET_DICT_RSF with B := 1e-2 } }
  let s := { s with SET_DICT_RSF := { s.SET_DICT_RSF with DC := 4e-4 } }
  let s := { s with SET_DICT_RSF := { s.SET_DICT_RSF with V_SS := s.V_PL } }
  let s := { s with SET_DICT_RSF :=
    { s.SET_DICT_RSF with TH_0 := s.SET_DICT_RSF.DC / s.V_PL } }
  s

/-- A later user assignment `set_dict["V_PL"] = v`: a single-key update, the
only kind of `set_dict` operation this repository performs. -/
def setVPL (v : ℚ) (s : SetDict) : SetDict := { s with V_PL := v }

/-- An arbitrary concrete initial `set_dict` (the pyqdyn defaults are external
to this repository; the configuration step overwrites every key it reads). -/
def initialSetDict : SetDict :=
  { MESHDIM := 0, FINITE := 0, TMAX := 0, NTOUT := 0, NXOUT := 0, V_PL := 1,
    MU := 0, W := 0, SIGMA := 0, ACC := 0, SOLVER := 0,
    SET_DICT_RSF := { A := 0, B := 0, DC := 0, V_SS := 0, TH_0 := 0 },
    N := 0, L := 0, IC := 0 }

/-- The kinds of top-level actions a notebook cell performs, in the pipeline
vocabulary of the spec. -/
inductive Step
  | setParams
  | settings
  | renderMesh
  | overrideMesh
  | writeInput
  | meshPlot
  | run
  | readOutput
  | inspectOutput
  | outputPlot
  deriving DecidableEq

/-- The pipeline predecessor of each step, per the flow (a)-(f) of the spec:
set parameters, mesh generation (`p.settings` then `p.render_mesh`),
`p.write_input`, `p.run`, `p.read_output`, output plotting.  Actions outside
this chain (mesh overrides, diagnostic mesh plots, table inspection) have no
designated predecessor. -/
def pipelinePred : Step → Option Step
  | Step.settings => some Step.setParams
  | Step.renderMesh => some Step.settings
  | Step.writeInput => some Step.renderMesh
  | Step.run => some Step.writeInput
  | Step.readOutput => some Step.run
  | Step.outputPlot => some Step.readOutput
  | _ => none

/-- A trace is ordered when every step with a pipeline predecessor is preceded
in the trace by an occurrence of that predecessor. -/
def stepOrdered (tr : List Step) : Prop :=
  ∀ i : Fin tr.length,
    pipelinePred (tr.get i) = none ∨
      ∃ j : Fin tr.length, (j : ℕ) < (i : ℕ) ∧ some (tr.get j) = pipelinePred (tr.get i)

instance (tr : List Step) : Decidable (stepOrdered tr) := by
  unfold stepOrdered; infer_instance

/-- The top-level actions of the single-asperity notebook, in cell order:
parameter assignments, `p.settings`, `p.render_mesh`, the mesh `A` override,
`p.write_input`, the (a-b) mesh plot, `p.run`, `p.read_output`, then
`qdyn_plot.timeseries`, `qdyn_plot.slip_profile`, `qdyn_plot.animation_slip`. -/
def singleAsperityTrace : List Step :=
  [Step.setParams, Step.settings, Step.renderMesh, Step.overrideMesh,
   Step.writeInput, Step.meshPlot, Step.run, Step.readOutput,
   Step.outputPlot, Step.outputPlot, Step.outputPlot]

/-- The top-level actions of the double-asperity notebook, in cell order. -/
def doubleAsperityTrace : List Step :=
  [Step.setParams, Step.settings, Step.renderMesh, Step.overrideMesh,
   Step.writeInput, Step.meshPlot, Step.run, Step.readOutput,
   Step.outputPlot, Step.outputPlot, Step.outputPlot]

/-- The top-level actions of the CNS spring-block notebook, in cell order:
two parameter cells, `p.settings`, `p.render_mesh`, `p.write_input`, `p.run`,
`p.read_output`, `p.ot.head(10)`, the time-series plot, then the second run
(`H` update, `p.settings`, `p.render_mesh`, `p.write_input`, `p.run`,
`p.read_output`, plot). -/
def cnsTrace : List Step :=
  [Step.setParams, Step.setParams, Step.settings, Step.renderMesh,
   Step.writeInput, Step.run, Step.readOutput, Step.inspectOutput,
   Step.outputPlot, Step.setParams, Step.settings, Step.renderMesh,
   Step.writeInput, Step.run, Step.readOutput, Step.outputPlot]

/-- The outputs of the single-asperity mesh construction. -/
structure MeshResult where
  N : ℤ
  x : List ℚ
  A : List ℚ

/-- The single-asperity mesh construction as a function of the configuration
constants alone (with `np.exp` passed explicitly as `expQ`): length scales,
element count, coordinate array, and the overridden direct-effect array. -/
def meshBuildSingle (expQ : ℚ → ℚ)
    (resolution Lasp0 L0 abRat MU DC B SIGMA : ℚ) : MeshResult :=
  let cab := 1 - abRat
  let Lb := MU * DC / (B * SIGMA)
  let Lc := Lb / cab
  let Lasp := Lasp0 * Lc
  let L := L0 * Lasp
  let n := meshSizeN resolution L Lb
  let xs := linspace (-L/2) (L/2) n.toNat
  { N := n, x := xs,
    A := xs.map (fun xi => B * (1 + cab * (1 - 2 * expQ (-(2 * xi / Lasp) ^ (6 : ℕ))))) }

/-- The notebook pipeline with fallible external calls: each stage is an
external operation returning `Except`, and the notebook chains them with no
handler in between. -/
def runPipeline {ε σ : Type} (settingsStep renderStep writeStep solverStep readStep :
    σ → Except ε σ) (s0 : σ) : Except ε σ :=
  (settingsStep s0).bind fun s1 =>
    (renderStep s1).bind fun s2 =>
      (writeStep s2).bind fun s3 =>
        (solverStep s3).bind fun s4 =>
          readStep s4

/-- The framework activation functions used by the MNIST notebook. -/
inductive Activation
  | relu
  | softmax
  | tanh
  | elu
  | selu
  deriving DecidableEq

/-- The framework layers used by the MNIST notebook. -/
inductive KerasLayer
  | flatten (input_shape : List ℕ)
  | dense (units : ℕ) (act : Activation)
  deriving DecidableEq

namespace MnistBasic

/-- The first `keras.Sequential` construction of the MNIST notebook:
`Flatten(input_shape=(28, 28))`, `Dense(128, relu)`, `Dense(10, softmax)`. -/
def model : List KerasLayer :=
  [KerasLayer.flatten [28, 28],
   KerasLayer.dense 128 Activation.relu,
   KerasLayer.dense 10 Activation.softmax]

/-- The second `keras.Sequential` construction (the exercise cell rebinds
`model`): `Flatten(input_shape=(28, 28))`, `Dense(64, tf.nn.tanh)`,
`Dense(32, tf.nn.elu)`, `Dense(16, tf.nn.selu)`, `Dense(10, tf.nn.softmax)`. -/
def modelExercise : List KerasLayer :=
  [KerasLayer.flatten [28, 28],
   KerasLayer.dense 64 Activation.tanh,
   KerasLayer.dense 32 Activation.elu,
   KerasLayer.dense 16 Activation.selu,
   KerasLayer.dense 10 Activation.softmax]

/-- A layer is a pre-built framework component: `Flatten`, or `Dense` with a
framework-provided (`tf.nn`) activation. -/
def isPrebuiltLayer : KerasLayer → Bool
  | KerasLayer.flatten _ => true
  | KerasLayer.dense _ Activation.relu => true
  | KerasLayer.dense _ Activation.softmax => true
  | KerasLayer.dense _ Activation.tanh => true
  | KerasLayer.dense _ Activation.elu => true
  | KerasLayer.dense _ Activation.selu => true

/-- The optimizer name string passed to the first `model.compile`. -/
def optimizer : String := "adam"

/-- The loss name string passed to the first `model.compile`. -/
def lossName : String := "sparse_categorical_crossentropy"

/-- The metric name strings passed to the first `model.compile`. -/
def metricNames : List String := ["accuracy"]

/-- The optimizer name string passed to the exercise-cell `model.compile`. -/
def optimizerExercise : String := "adam"

/-- The loss name string passed to the exercise-cell `model.compile`. -/
def lossNameExercise : String := "sparse_categorical_crossentropy"

/-- The metric name strings passed to the exercise-cell `model.compile`. -/
def metricNamesExercise : List String := ["accuracy"]

/-- The training entry points invoked by the notebook, in cell order: the
main `model.fit` and the exercise-cell `model.fit` (`evaluate` and `predict`
do not train). -/
def trainingInvocations : List String := ["fit", "fit"]

/-- The pixel preprocessing `v / 255.0`. -/
def preprocessPixel (v : ℚ) : ℚ := v / 255

/-- Source: `train_images = train_images / 255.0`, elementwise over an image list. -/
def preprocessTrain (imgs : List (List ℚ)) : List (List ℚ) :=
  imgs.map (fun img => img.map (fun v => v / 255))

/-- Source: `test_images = test_images / 255.0`, elementwise over an image list. -/
def preprocessTest (imgs : List (List ℚ)) : List (List ℚ) :=
  imgs.map (fun img => img.map (fun v => v / 255))

end MnistBasic

/-! ## Helper lemmas -/

theorem linspace_length (a b : ℚ) (n : ℕ) : (linspace a b n).length = n := by
  simp [linspace]

theorem two_nat_cast_q : ((2 : ℕ) : ℚ) = (2 : ℚ) := by norm_num

theorem q_le_two_zpow_clog (q : ℚ) : q ≤ (2 : ℚ) ^ Int.clog 2 q := by
  have h := Int.self_le_zpow_clog (b := 2) (r := q) (by norm_num)
  rwa [two_nat_cast_q] at h

theorem le_two_zpow_iff_clog_le {q : ℚ} (hq : 0 < q) (z : ℤ) :
    q ≤ (2 : ℚ) ^ z ↔ Int.clog 2 q ≤ z := by
  have h := Int.le_zpow_iff_clog_le (b := 2) (R := ℚ) (by norm_num) (x := z) hq
  rwa [two_nat_cast_q] at h

theorem clog_two_zpow (z : ℤ) : Int.clog 2 ((2 : ℚ) ^ z) = z := by
  have h := Int.clog_zpow (b := 2) (R := ℚ) (by norm_num) z
  rwa [two_nat_cast_q] at h

theorem getD_map_range {α : Type} (g : ℕ → α) (d : α) {n i : ℕ} (h : i < n) :
    (((List.range n).map g).getD i d) = g i := by
  rw [List.getD_eq_getElem?_getD, List.getElem?_map, List.getElem?_range h]
  rfl

theorem zipWith_map_same {α β γ δ : Type} (g : β → γ → δ) (h1 : α → β) (h2 : α → γ) :
    ∀ l : List α, List.zipWith g (l.map h1) (l.map h2) = l.map (fun a => g (h1 a) (h2 a))
  | [] => rfl
  | a :: t => by simp [zipWith_map_same g h1 h2 t]

theorem except_bind_ok {eTy aTy bTy : Type} (a : aTy) (g : aTy → Except eTy bTy) :
    (Except.ok a : Except eTy aTy).bind g = g a := rfl

theorem except_bind_error {eTy aTy bTy : Type} (e : eTy) (g : aTy → Except eTy bTy) :
    (Except.error e : Except eTy aTy).bind g = (Except.error e : Except eTy bTy) := rfl

theorem da_q_eq : DoubleAsperity.resolution * DoubleAsperity.L / DoubleAsperity.Lb = 525 := by
  norm_num [DoubleAsperity.resolution, DoubleAsperity.L, DoubleAsperity.L0,
    DoubleAsperity.Lc, DoubleAsperity.Lb, DoubleAsperity.cabRat,
    DoubleAsperity.abRat, DoubleAsperity.MU, DoubleAsperity.DC,
    DoubleAsperity.B, DoubleAsperity.SIGMA]

theorem clog_two_525 : Int.clog 2 (525 : ℚ) = 10 := by
  have h1 : (525 : ℚ) ≤ (2 : ℚ) ^ (10 : ℤ) := by norm_num
  have h2 : ¬((525 : ℚ) ≤ (2 : ℚ) ^ (9 : ℤ)) := by norm_num
  have h3 := (le_two_zpow_iff_clog_le (by norm_num : (0:ℚ) < 525) 10).mp h1
  have h4 : ¬(Int.clog 2 (525 : ℚ) ≤ 9) := fun hc =>
    h2 ((le_two_zpow_iff_clog_le (by norm_num : (0:ℚ) < 525) 9).mpr hc)
  omega

theorem da_meshSize_eq : meshSizeN DoubleAsperity.resolution DoubleAsperity.L DoubleAsperity.Lb = 1024 := by
  rw [meshSizeN, da_q_eq, clog_two_525]
  norm_num

theorem da_N_eq : DoubleAsperity.N = 1024 := by
  rw [DoubleAsperity.N, da_meshSize_eq]
  rfl

theorem da_L_eq : DoubleAsperity.L = 900 := by
  norm_num [DoubleAsperity.L, DoubleAsperity.L0, DoubleAsperity.Lc,
    DoubleAsperity.Lb, DoubleAsperity.cabRat, DoubleAsperity.abRat,
    DoubleAsperity.MU, DoubleAsperity.DC, DoubleAsperity.B, DoubleAsperity.SIGMA]

theorem da_p1_eq : DoubleAsperity.p1 = -150 := by
  rw [DoubleAsperity.p1, da_L_eq]; norm_num

theorem da_p2_eq : DoubleAsperity.p2 = 150 := by
  rw [DoubleAsperity.p2, da_L_eq]; norm_num

theorem da_L1_eq (fv : ℚ) : DoubleAsperity.L1 fv = 450 * fv := by
  rw [DoubleAsperity.L1, da_L_eq]; ring

theorem da_L2_eq (fv : ℚ) : DoubleAsperity.L2 fv = 450 * (1 - fv) := by
  rw [DoubleAsperity.L2, da_L_eq]; ring

/-! ## Claim C1 -/

/-- C1 (counterexample): the claim quantifies over all positive `resolution`,
`L` and `Lb`; at `resolution = 1`, `L = 1`, `Lb = 2` (all positive) the
quotient is `1/2`, `np.ceil(np.log2(1/2)) = -1`, and `int(2 ** -1) = int(0.5)
= 0`, which is not a power of two. -/
theorem C1_counterexample :
    (0 : ℚ) < 1 ∧ (0 : ℚ) < 1 ∧ (0 : ℚ) < 2 ∧ meshSizeN 1 1 2 = 0 ∧
      ∀ k : ℕ, meshSizeN 1 1 2 ≠ 2 ^ k := by
  have h : (1 * 1 / 2 : ℚ) = (2 : ℚ) ^ (-1 : ℤ) := by norm_num
  have hval : meshSizeN 1 1 2 = 0 := by
    rw [meshSizeN, h, clog_two_zpow]
    norm_num
  refine ⟨by norm_num, by norm_num, by norm_num, hval, fun k hk => ?_⟩
  rw [hval] at hk
  exact absurd hk.symm (pow_pos (by norm_num : (0:ℤ) < 2) k).ne.symm

/-- C1 (amended): for positive `resolution`, `L`, `Lb` whose quotient
`resolution * L / Lb` exceeds `1/2`, the element count
`N = int(2 ** ceil(log2(resolution * L / Lb)))` is a power of two, is at
least the quotient, and is the smallest such power of two.  (For quotients
`≤ 1/2` the truncation `int` collapses the fractional power to `0`.) -/
theorem C1_mesh_size_power_of_two (r L Lb : ℚ) (hr : 0 < r) (hL : 0 < L)
    (hb : 0 < Lb) (hq : 1/2 < r * L / Lb) :
    ∃ k : ℕ, meshSizeN r L Lb = 2 ^ k ∧ r * L / Lb ≤ (2 : ℚ) ^ k ∧
      ∀ j : ℕ, r * L / Lb ≤ (2 : ℚ) ^ j → k ≤ j := by
  set q : ℚ := r * L / Lb with hqdef
  have hq0 : 0 < q := lt_trans (by norm_num) hq
  have hle : q ≤ (2 : ℚ) ^ Int.clog 2 q := q_le_two_zpow_clog q
  have hc : 0 ≤ Int.clog 2 q := by
    by_contra hneg
    push_neg at hneg
    have h1 : Int.clog 2 q ≤ -1 := by omega
    have h2 : (2 : ℚ) ^ Int.clog 2 q ≤ (2 : ℚ) ^ (-1 : ℤ) :=
      zpow_le_zpow_right₀ (by norm_num) h1
    have h3 : ((2 : ℚ) ^ (-1 : ℤ)) = 1/2 := by norm_num
    rw [h3] at h2
    linarith
  obtain ⟨k, hk⟩ : ∃ k : ℕ, (k : ℤ) = Int.clog 2 q :=
    ⟨(Int.clog 2 q).toNat, Int.toNat_of_nonneg hc⟩
  have hpow : (2 : ℚ) ^ Int.clog 2 q = (2 : ℚ) ^ k := by
    rw [← hk, zpow_natCast]
  refine ⟨k, ?_, ?_, ?_⟩
  · rw [meshSizeN, ← hqdef, hpow]
    have h4 : ((2 : ℚ) ^ k) = (((2 : ℤ) ^ k : ℤ) : ℚ) := by push_cast; ring
    rw [h4, Int.floor_intCast]
  · rw [← hpow]; exact hle
  · intro j hj
    have hj' : q ≤ (2 : ℚ) ^ (j : ℤ) := by rwa [zpow_natCast]
    have h5 := (le_two_zpow_iff_clog_le hq0 (j : ℤ)).mp hj'
    omega

/-- C1 witness: the amended theorem applied at the constants of the
double-asperity notebook itself, whose quotient is `525`. -/
theorem C1_mesh_size_power_of_two_witness :
    (0 : ℚ) < DoubleAsperity.resolution ∧ (0 : ℚ) < DoubleAsperity.L ∧
      (0 : ℚ) < DoubleAsperity.Lb ∧
      1/2 < DoubleAsperity.resolution * DoubleAsperity.L / DoubleAsperity.Lb ∧
      ∃ k : ℕ,
        meshSizeN DoubleAsperity.resolution DoubleAsperity.L DoubleAsperity.Lb = 2 ^ k ∧
        DoubleAsperity.resolution * DoubleAsperity.L / DoubleAsperity.Lb ≤ (2 : ℚ) ^ k ∧
        ∀ j : ℕ,
          DoubleAsperity.resolution * DoubleAsperity.L / DoubleAsperity.Lb ≤ (2 : ℚ) ^ j →
          k ≤ j := by
  have hq : 1/2 < DoubleAsperity.resolution * DoubleAsperity.L / DoubleAsperity.Lb := by
    rw [da_q_eq]; norm_num
  have hr : (0 : ℚ) < DoubleAsperity.resolution := by norm_num [DoubleAsperity.resolution]
  have hL : (0 : ℚ) < DoubleAsperity.L := by rw [da_L_eq]; norm_num
  have hb : (0 : ℚ) < DoubleAsperity.Lb := by
    norm_num [DoubleAsperity.Lb, DoubleAsperity.MU, DoubleAsperity.DC,
      DoubleAsperity.B, DoubleAsperity.SIGMA]
  exact ⟨hr, hL, hb, hq, C1_mesh_size_power_of_two _ _ _ hr hL hb hq⟩

/-! ## Claim C2 -/

/-- C2: in each fault-mesh notebook every per-quantity mesh array has exactly
`N` entries: the coordinate array `x`, the single-asperity direct-effect
array (for any exponential function `expQ`), and the double-asperity masked
override of the rendered array (for any size ratio `fv`). -/
theorem C2_mesh_array_lengths :
    SingleAsperity.x.length = SingleAsperity.N ∧
    (∀ expQ : ℚ → ℚ, (SingleAsperity.meshA expQ).length = SingleAsperity.N) ∧
    DoubleAsperity.x.length = DoubleAsperity.N ∧
    (∀ fv : ℚ, (DoubleAsperity.meshA fv).length = DoubleAsperity.N) := by
  refine ⟨linspace_length _ _ _, fun e => ?_, linspace_length _ _ _, fun fv => ?_⟩
  · simp [SingleAsperity.meshA, SingleAsperity.x, linspace]
  · simp [DoubleAsperity.meshA, DoubleAsperity.combinedMask, DoubleAsperity.asp1,
      DoubleAsperity.asp2, DoubleAsperity.renderA, DoubleAsperity.renderB,
      DoubleAsperity.x, linspace]

/-! ## Claim C3 -/

/-- C3: every simulation notebook performs the pipeline steps in the fixed
order — in each notebook trace, every occurrence of a pipeline step is
preceded by an occurrence of its predecessor (parameters before `p.settings`
before `p.render_mesh` before `p.write_input` before `p.run` before
`p.read_output` before any output plot). -/
theorem C3_pipeline_order :
    stepOrdered singleAsperityTrace ∧ stepOrdered doubleAsperityTrace ∧
      stepOrdered cnsTrace := by
  refine ⟨by decide, by decide, by decide⟩

/-! ## Claims C4 and C5: the asperity masks -/

theorem da_asp1b_true_iff (fv xi : ℚ) :
    DoubleAsperity.asp1b fv xi = true ↔ DoubleAsperity.asp1P fv xi := by
  simp [DoubleAsperity.asp1b, DoubleAsperity.asp1P]

theorem da_asp2b_true_iff (fv xi : ℚ) :
    DoubleAsperity.asp2b fv xi = true ↔ DoubleAsperity.asp2P fv xi := by
  simp [DoubleAsperity.asp2b, DoubleAsperity.asp2P]

theorem da_maskb_true_iff (fv xi : ℚ) :
    DoubleAsperity.maskb fv xi = true ↔
      (DoubleAsperity.asp1P fv xi ∨ DoubleAsperity.asp2P fv xi) := by
  rw [DoubleAsperity.maskb, Bool.or_eq_true, da_asp1b_true_iff, da_asp2b_true_iff]

theorem da_mask_mirror_prop (fv z : ℚ) :
    (DoubleAsperity.asp1P fv z ∨ DoubleAsperity.asp2P fv z) ↔
      (DoubleAsperity.asp1P (1 - fv) (-z) ∨ DoubleAsperity.asp2P (1 - fv) (-z)) := by
  simp only [DoubleAsperity.asp1P, DoubleAsperity.asp2P, da_p1_eq, da_p2_eq,
    da_L1_eq, da_L2_eq]
  constructor
  · rintro (⟨h1, h2⟩ | ⟨h1, h2⟩)
    · right; constructor <;> linarith
    · left; constructor <;> linarith
  · rintro (⟨h1, h2⟩ | ⟨h1, h2⟩)
    · right; constructor <;> linarith
    · left; constructor <;> linarith

theorem da_maskb_mirror (fv y : ℚ) :
    DoubleAsperity.maskb (1 - fv) (-y) = DoubleAsperity.maskb fv y := by
  rw [Bool.eq_iff_iff, da_maskb_true_iff, da_maskb_true_iff]
  exact (da_mask_mirror_prop fv y).symm

theorem da_xcoord_mirror {i : ℕ} (h : i < 1024) :
    linspaceAt (-DoubleAsperity.L/2) (DoubleAsperity.L/2) DoubleAsperity.N (1023 - i) =
      -linspaceAt (-DoubleAsperity.L/2) (DoubleAsperity.L/2) DoubleAsperity.N i := by
  have hle : i ≤ 1023 := by omega
  have hi : ((1023 - i : ℕ) : ℚ) = 1023 - (i : ℚ) := by
    rw [Nat.cast_sub hle]; norm_num
  simp only [linspaceAt, da_N_eq, da_L_eq, hi]
  norm_num
  ring

theorem da_maskAt_eq (gv : ℚ) {j : ℕ} (hj : j < 1024) :
    DoubleAsperity.maskAt gv j =
      DoubleAsperity.maskb gv
        (linspaceAt (-DoubleAsperity.L/2) (DoubleAsperity.L/2) DoubleAsperity.N j) := by
  rw [DoubleAsperity.maskAt, DoubleAsperity.combinedMask, DoubleAsperity.asp1,
    DoubleAsperity.asp2, zipWith_map_same, DoubleAsperity.x, linspace,
    List.map_map]
  have h := getD_map_range
    ((fun a => DoubleAsperity.asp1b gv a || DoubleAsperity.asp2b gv a) ∘
      linspaceAt (-DoubleAsperity.L/2) (DoubleAsperity.L/2) DoubleAsperity.N)
    false (n := DoubleAsperity.N) (i := j) (by rw [da_N_eq]; exact hj)
  rw [h]
  rfl

/-- C4: for every size ratio `fv ∈ [0, 1]` the two asperity index masks are
disjoint — no position satisfies both window conditions — and the boolean sum
`asp1 + asp2` used to index the mesh equals the pointwise union of the two
masks over the coordinate array. -/
theorem C4_asperity_masks_disjoint (fv : ℚ) (h0 : 0 ≤ fv) (h1 : fv ≤ 1) :
    (∀ xi : ℚ, ¬(DoubleAsperity.asp1P fv xi ∧ DoubleAsperity.asp2P fv xi)) ∧
    DoubleAsperity.combinedMask fv =
      DoubleAsperity.x.map
        (fun xi => DoubleAsperity.asp1b fv xi || DoubleAsperity.asp2b fv xi) := by
  constructor
  · rintro xi ⟨ha, hb⟩
    rw [DoubleAsperity.asp1P, da_p1_eq, da_L1_eq] at ha
    rw [DoubleAsperity.asp2P, da_p2_eq, da_L2_eq] at hb
    obtain ⟨ha1, ha2⟩ := ha
    obtain ⟨hb1, hb2⟩ := hb
    linarith
  · exact zipWith_map_same _ _ _ DoubleAsperity.x

/-- C4 witness: the disjointness and union statement at the configured notebook
size ratio `f = 0.5`. -/
theorem C4_asperity_masks_disjoint_witness :
    (0 : ℚ) ≤ 1/2 ∧ (1/2 : ℚ) ≤ 1 ∧
    ((∀ xi : ℚ, ¬(DoubleAsperity.asp1P (1/2) xi ∧ DoubleAsperity.asp2P (1/2) xi)) ∧
      DoubleAsperity.combinedMask (1/2) =
        DoubleAsperity.x.map
          (fun xi => DoubleAsperity.asp1b (1/2) xi || DoubleAsperity.asp2b (1/2) xi)) :=
  ⟨by norm_num, by norm_num,
    C4_asperity_masks_disjoint (1/2) (by norm_num) (by norm_num)⟩

/-- C5: for every size ratio `fv ∈ [0, 1]` and index `i < N`, the combined
asperity mask at ratio `fv` is the spatial mirror of the mask at ratio
`1 - fv`: entry `i` of one equals entry `N - 1 - i` of the other. -/
theorem C5_mask_mirror (fv : ℚ) (h0 : 0 ≤ fv) (h1 : fv ≤ 1) (i : ℕ)
    (hi : i < DoubleAsperity.N) :
    DoubleAsperity.maskAt fv i =
      DoubleAsperity.maskAt (1 - fv) (DoubleAsperity.N - 1 - i) := by
  have hN : DoubleAsperity.N = 1024 := da_N_eq
  have hi' : i < 1024 := by omega
  have hsub : DoubleAsperity.N - 1 - i = 1023 - i := by omega
  rw [hsub, da_maskAt_eq fv hi',
    da_maskAt_eq (1 - fv) (by omega : 1023 - i < 1024),
    da_xcoord_mirror hi', da_maskb_mirror]

/-- C5 witness: the mirror identity at `f = 0`, `i = 0` (entry `0` of the
`f = 0` mask equals entry `1023` of the `f = 1` mask). -/
theorem C5_mask_mirror_witness :
    (0 : ℚ) ≤ 0 ∧ (0 : ℚ) ≤ 1 ∧ 0 < DoubleAsperity.N ∧
      DoubleAsperity.maskAt 0 0 =
        DoubleAsperity.maskAt (1 - 0) (DoubleAsperity.N - 1 - 0) :=
  ⟨le_refl 0, by norm_num, by rw [da_N_eq]; norm_num,
    C5_mask_mirror 0 (le_refl 0) (by norm_num) 0 (by rw [da_N_eq]; norm_num)⟩

/-! ## Claim C6 -/

/-- C6: after the configuration step of each rate-and-state notebook,
`V_SS = V_PL` and `TH_0 = DC / V_PL` hold (established by direct assignment),
and nothing re-checks or restores them: a later single-key change of `V_PL`
leaves `V_SS` and `TH_0` untouched, so the first relation fails whenever the
new value differs from the configured one. -/
theorem C6_no_cross_key_consistency (s0 : SetDict) (v : ℚ)
    (hv : v ≠ (configureDouble s0).V_PL) :
    ((configureSingle s0).SET_DICT_RSF.V_SS = (configureSingle s0).V_PL) ∧
    ((configureSingle s0).SET_DICT_RSF.TH_0 =
      (configureSingle s0).SET_DICT_RSF.DC / (configureSingle s0).V_PL) ∧
    ((configureDouble s0).SET_DICT_RSF.V_SS = (configureDouble s0).V_PL) ∧
    ((configureDouble s0).SET_DICT_RSF.TH_0 =
      (configureDouble s0).SET_DICT_RSF.DC / (configureDouble s0).V_PL) ∧
    ((setVPL v (configureDouble s0)).SET_DICT_RSF.V_SS =
      (configureDouble s0).SET_DICT_RSF.V_SS) ∧
    ((setVPL v (configureDouble s0)).SET_DICT_RSF.TH_0 =
      (configureDouble s0).SET_DICT_RSF.TH_0) ∧
    ((setVPL v (configureDouble s0)).SET_DICT_RSF.V_SS ≠
      (setVPL v (configureDouble s0)).V_PL) := by
  refine ⟨rfl, rfl, rfl, rfl, rfl, rfl, fun h => hv h.symm⟩

/-- C6 witness: the statement at a concrete initial dictionary and the later
reassignment `set_dict["V_PL"] = 1`, which differs from the configured
`1e-9`. -/
theorem C6_no_cross_key_consistency_witness :
    (1 : ℚ) ≠ (configureDouble initialSetDict).V_PL ∧
    (((configureSingle initialSetDict).SET_DICT_RSF.V_SS =
        (configureSingle initialSetDict).V_PL) ∧
      ((configureSingle initialSetDict).SET_DICT_RSF.TH_0 =
        (configureSingle initialSetDict).SET_DICT_RSF.DC /
          (configureSingle initialSetDict).V_PL) ∧
      ((configureDouble initialSetDict).SET_DICT_RSF.V_SS =
        (configureDouble initialSetDict).V_PL) ∧
      ((configureDouble initialSetDict).SET_DICT_RSF.TH_0 =
        (configureDouble initialSetDict).SET_DICT_RSF.DC /
          (configureDouble initialSetDict).V_PL) ∧
      ((setVPL 1 (configureDouble initialSetDict)).SET_DICT_RSF.V_SS =
        (configureDouble initialSetDict).SET_DICT_RSF.V_SS) ∧
      ((setVPL 1 (configureDouble initialSetDict)).SET_DICT_RSF.TH_0 =
        (configureDouble initialSetDict).SET_DICT_RSF.TH_0) ∧
      ((setVPL 1 (configureDouble initialSetDict)).SET_DICT_RSF.V_SS ≠
        (setVPL 1 (configureDouble initialSetDict)).V_PL)) := by
  have hv : (1 : ℚ) ≠ (configureDouble initialSetDict).V_PL := by
    simp only [configureDouble, initialSetDict]
    norm_num
  exact ⟨hv, C6_no_cross_key_consistency initialSetDict 1 hv⟩

/-! ## Claim C7 -/

/-- C7: the mesh construction is a deterministic function of its
configuration constants alone — runs from pairwise-equal constants produce
the same element count `N`, the same coordinate array `x`, and the same
overridden direct-effect array `A`. -/
theorem C7_mesh_build_deterministic (expQ : ℚ → ℚ)
    (r1 r2 a1 a2 b1 b2 c1 c2 m1 m2 d1 d2 e1 e2 g1 g2 : ℚ)
    (h1 : r1 = r2) (h2 : a1 = a2) (h3 : b1 = b2) (h4 : c1 = c2)
    (h5 : m1 = m2) (h6 : d1 = d2) (h7 : e1 = e2) (h8 : g1 = g2) :
    meshBuildSingle expQ r1 a1 b1 c1 m1 d1 e1 g1 =
      meshBuildSingle expQ r2 a2 b2 c2 m2 d2 e2 g2 ∧
    (meshBuildSingle expQ r1 a1 b1 c1 m1 d1 e1 g1).N =
      (meshBuildSingle expQ r2 a2 b2 c2 m2 d2 e2 g2).N ∧
    (meshBuildSingle expQ r1 a1 b1 c1 m1 d1 e1 g1).x =
      (meshBuildSingle expQ r2 a2 b2 c2 m2 d2 e2 g2).x ∧
    (meshBuildSingle expQ r1 a1 b1 c1 m1 d1 e1 g1).A =
      (meshBuildSingle expQ r2 a2 b2 c2 m2 d2 e2 g2).A := by
  subst h1; subst h2; subst h3; subst h4; subst h5; subst h6; subst h7; subst h8
  exact ⟨rfl, rfl, rfl, rfl⟩

/-- C7 witness: the determinism statement at the constants of the
single-asperity notebook (with a stand-in exponential). -/
theorem C7_mesh_build_deterministic_witness :
    meshBuildSingle (fun _ => 1) 7 7 5 0.8 3e10 4e-4 1e-2 1e8 =
      meshBuildSingle (fun _ => 1) 7 7 5 0.8 3e10 4e-4 1e-2 1e8 ∧
    (meshBuildSingle (fun _ => 1) 7 7 5 0.8 3e10 4e-4 1e-2 1e8).N =
      (meshBuildSingle (fun _ => 1) 7 7 5 0.8 3e10 4e-4 1e-2 1e8).N ∧
    (meshBuildSingle (fun _ => 1) 7 7 5 0.8 3e10 4e-4 1e-2 1e8).x =
      (meshBuildSingle (fun _ => 1) 7 7 5 0.8 3e10 4e-4 1e-2 1e8).x ∧
    (meshBuildSingle (fun _ => 1) 7 7 5 0.8 3e10 4e-4 1e-2 1e8).A =
      (meshBuildSingle (fun _ => 1) 7 7 5 0.8 3e10 4e-4 1e-2 1e8).A :=
  C7_mesh_build_deterministic (fun _ => 1) 7 7 7 7 5 5 0.8 0.8 3e10 3e10
    4e-4 4e-4 1e-2 1e-2 1e8 1e8 rfl rfl rfl rfl rfl rfl rfl rfl

/-! ## Claim C8 -/

/-- C8: the notebooks install no handler anywhere in the pipeline: whichever
stage first returns an error, the composite returns exactly that error, and
the stages after it never run. -/
theorem C8_error_propagation {ε σ : Type}
    (settingsStep renderStep writeStep solverStep readStep : σ → Except ε σ)
    (s0 : σ) (e : ε) :
    (settingsStep s0 = Except.error e →
      runPipeline settingsStep renderStep writeStep solverStep readStep s0 =
        Except.error e) ∧
    (∀ s1, settingsStep s0 = Except.ok s1 → renderStep s1 = Except.error e →
      runPipeline settingsStep renderStep writeStep solverStep readStep s0 =
        Except.error e) ∧
    (∀ s1 s2, settingsStep s0 = Except.ok s1 → renderStep s1 = Except.ok s2 →
      writeStep s2 = Except.error e →
      runPipeline settingsStep renderStep writeStep solverStep readStep s0 =
        Except.error e) ∧
    (∀ s1 s2 s3, settingsStep s0 = Except.ok s1 → renderStep s1 = Except.ok s2 →
      writeStep s2 = Except.ok s3 → solverStep s3 = Except.error e →
      runPipeline settingsStep renderStep writeStep solverStep readStep s0 =
        Except.error e) ∧
    (∀ s1 s2 s3 s4, settingsStep s0 = Except.ok s1 →
      renderStep s1 = Except.ok s2 → writeStep s2 = Except.ok s3 →
      solverStep s3 = Except.ok s4 → readStep s4 = Except.error e →
      runPipeline settingsStep renderStep writeStep solverStep readStep s0 =
        Except.error e) := by
  refine ⟨fun h1 => ?_, fun s1 h1 h2 => ?_, fun s1 s2 h1 h2 h3 => ?_,
    fun s1 s2 s3 h1 h2 h3 h4 => ?_, fun s1 s2 s3 s4 h1 h2 h3 h4 h5 => ?_⟩
  · simp only [runPipeline, h1, except_bind_error]
  · simp only [runPipeline, h1, except_bind_ok, h2, except_bind_error]
  · simp only [runPipeline, h1, except_bind_ok, h2, h3, except_bind_error]
  · simp only [runPipeline, h1, except_bind_ok, h2, h3, h4, except_bind_error]
  · simp only [runPipeline, h1, except_bind_ok, h2, h3, h4, h5, except_bind_error]

/-- C8 witness: a concrete pipeline over ℕ whose solver stage fails with
error `7`; the composite returns exactly `error 7`. -/
theorem C8_error_propagation_witness :
    runPipeline (fun n => Except.ok (n + 1)) (fun n => Except.ok (n + 1))
      (fun n => Except.ok (n + 1)) (fun _ => Except.error 7)
      (fun n => Except.ok n) (0 : ℕ) = Except.error (7 : ℕ) :=
  (C8_error_propagation (fun n => Except.ok (n + 1)) (fun n => Except.ok (n + 1))
    (fun n => Except.ok (n + 1)) (fun _ => Except.error 7)
    (fun n => Except.ok n) 0 7).2.2.2.1 1 2 3 rfl rfl rfl rfl

/-! ## Claim C9 -/

/-- C9: the MNIST classifier is assembled entirely from pre-built framework
components, for both models the notebook constructs: the main model is
exactly `Flatten`, `Dense(128, relu)`, `Dense(10, softmax)` and the
exercise-cell model is exactly `Flatten`, `Dense(64, tanh)`,
`Dense(32, elu)`, `Dense(16, selu)`, `Dense(10, softmax)`; every layer of
both satisfies the pre-built predicate; both `compile` calls select the
optimizer and loss by the built-in name strings; and the only training entry
points invoked are the two framework `fit` calls. -/
theorem C9_prebuilt_model :
    MnistBasic.model =
      [KerasLayer.flatten [28, 28], KerasLayer.dense 128 Activation.relu,
       KerasLayer.dense 10 Activation.softmax] ∧
    MnistBasic.modelExercise =
      [KerasLayer.flatten [28, 28], KerasLayer.dense 64 Activation.tanh,
       KerasLayer.dense 32 Activation.elu, KerasLayer.dense 16 Activation.selu,
       KerasLayer.dense 10 Activation.softmax] ∧
    MnistBasic.model.all MnistBasic.isPrebuiltLayer = true ∧
    MnistBasic.modelExercise.all MnistBasic.isPrebuiltLayer = true ∧
    MnistBasic.optimizer = "adam" ∧
    MnistBasic.lossName = "sparse_categorical_crossentropy" ∧
    MnistBasic.metricNames = ["accuracy"] ∧
    MnistBasic.optimizerExercise = "adam" ∧
    MnistBasic.lossNameExercise = "sparse_categorical_crossentropy" ∧
    MnistBasic.metricNamesExercise = ["accuracy"] ∧
    MnistBasic.trainingInvocations = ["fit", "fit"] :=
  ⟨rfl, rfl, rfl, rfl, rfl, rfl, rfl, rfl, rfl, rfl, rfl⟩

/-! ## Claim C10 -/

/-- C10: dividing an integer pixel value in `0..255` by `255.0` lands in
`[0, 1]`, with `0 ↦ 0` and `255 ↦ 1`, and the training and test sets are
transformed by the same function. -/
theorem C10_preprocess_range (v : ℤ) (h0 : 0 ≤ v) (h255 : v ≤ 255) :
    0 ≤ MnistBasic.preprocessPixel (v : ℚ) ∧
    MnistBasic.preprocessPixel (v : ℚ) ≤ 1 ∧
    MnistBasic.preprocessPixel 0 = 0 ∧
    MnistBasic.preprocessPixel 255 = 1 ∧
    MnistBasic.preprocessTrain = MnistBasic.preprocessTest := by
  have hv0 : (0 : ℚ) ≤ (v : ℚ) := by exact_mod_cast h0
  have hv255 : (v : ℚ) ≤ 255 := by exact_mod_cast h255
  refine ⟨?_, ?_, by norm_num [MnistBasic.preprocessPixel],
    by norm_num [MnistBasic.preprocessPixel], rfl⟩
  · rw [MnistBasic.preprocessPixel]
    positivity
  · rw [MnistBasic.preprocessPixel, div_le_one (by norm_num)]
    linarith

/-- C10 witness: the range statement at the pixel value `7`. -/
theorem C10_preprocess_range_witness :
    (0 : ℤ) ≤ 7 ∧ (7 : ℤ) ≤ 255 ∧
    (0 ≤ MnistBasic.preprocessPixel ((7 : ℤ) : ℚ) ∧
      MnistBasic.preprocessPixel ((7 : ℤ) : ℚ) ≤ 1 ∧
      MnistBasic.preprocessPixel 0 = 0 ∧
      MnistBasic.preprocessPixel 255 = 1 ∧
      MnistBasic.preprocessTrain = MnistBasic.preprocessTest) :=
  ⟨by norm_num, by norm_num, C10_preprocess_range 7 (by norm_num) (by norm_num)⟩
